import Mathlib

/-!
Verification of the survival-curve estimation engine of the ADSL_streamlit
repository (`src/adsl_streamlit3.py`, function `km_plot`).

The pipeline embedded here follows `km_plot` line by line:
  * filter the subject-level table (ADSL) to `SAFFL == "Y"` and
    `STUDYID == "CDISCPILOT01"`, keeping `STUDYID, USUBJID, TRT01A`;
  * filter the time-to-event table (ADTTE) to `STUDYID == "CDISCPILOT01"`,
    keeping `STUDYID, USUBJID, AVAL, CNSR, PARAM, PARAMCD`;
  * inner-merge on `(STUDYID, USUBJID)` (left-frame order, each left row
    paired with every matching right row);
  * assign `TRT01A := pd.Categorical(TRT01A, categories = the three fixed
    arms)` (labels outside the fixed set become a null category, the row
    is kept) and `AVAL := AVAL / 30.4167`;
  * if the resulting frame has at most 5 rows, report an error and return
    no figure; otherwise, for each of the three fixed categories in order,
    fit a Kaplan-Meier estimator on that arm's `(AVAL, CNSR)` columns,
    passing `CNSR` directly as `event_observed`.

Times and probabilities are embedded as rationals (`ℚ`); the data frames
as lists of records.
-/

/-- A row of the subject-level table (ADSL) with the columns `km_plot`
touches. -/
structure SubjRow where
  studyid : String
  usubjid : String
  trt01a : String
  saffl : String
deriving DecidableEq

/-- A row of the time-to-event table (ADTTE) with the columns `km_plot`
touches.  `CNSR` is a numeric indicator column. -/
structure EventRow where
  studyid : String
  usubjid : String
  aval : ℚ
  cnsr : ℕ
  param : String
  paramcd : String
deriving DecidableEq

/-- A row of the merged frame before the `.assign(...)` step. -/
structure MergedRow where
  studyid : String
  usubjid : String
  trt01a : String
  aval : ℚ
  cnsr : ℕ
  param : String
  paramcd : String
deriving DecidableEq

/-- A row of the analysis frame `anl` after the `.assign(...)` step:
`TRT01A` is now categorical (`none` encodes the null category that
`pd.Categorical` produces for a label outside the fixed set) and `AVAL`
has been divided by the days-per-month constant. -/
structure AnlRow where
  studyid : String
  usubjid : String
  trt01a : Option String
  aval : ℚ
  cnsr : ℕ
  param : String
  paramcd : String
deriving DecidableEq

/-- The fixed treatment-arm category list of line 53, in display order. -/
def fixedArms : List String :=
  ["Placebo", "Xanomeline Low Dose", "Xanomeline High Dose"]

/-- The study identifier hard-coded at lines 47 and 49. -/
def theStudy : String := "CDISCPILOT01"

/-- The days-per-month constant of line 54: `30.4167`. -/
def daysPerMonth : ℚ := 304167 / 10000

/-- Line 46-48: `adsl[(adsl.SAFFL == "Y") & (adsl.STUDYID == "CDISCPILOT01")]`. -/
def subjFilter (adsl : List SubjRow) : List SubjRow :=
  adsl.filter (fun r => decide (r.saffl = "Y" ∧ r.studyid = theStudy))

/-- Line 49: `adtte[adtte.STUDYID == "CDISCPILOT01"]`.  Note: the column
selection keeps `PARAMCD` but no filter on it is applied. -/
def eventFilter (adtte : List EventRow) : List EventRow :=
  adtte.filter (fun r => decide (r.studyid = theStudy))

/-- Lines 48-52: inner merge on `["STUDYID", "USUBJID"]`.  Pandas inner
merge preserves the left frame's order and pairs each left row with every
matching right row. -/
def mergeRows (subs : List SubjRow) (evs : List EventRow) : List MergedRow :=
  subs.flatMap (fun s =>
    (evs.filter (fun e => decide (e.studyid = s.studyid ∧ e.usubjid = s.usubjid))).map
      (fun e => ⟨s.studyid, s.usubjid, s.trt01a, e.aval, e.cnsr, e.param, e.paramcd⟩))

/-- The categorical conversion of line 53: a label in the fixed category
set stays itself, anything else becomes the null category. -/
def catArm (s : String) : Option String :=
  if s ∈ fixedArms then some s else none

/-- Lines 52-55: the `.assign` step, converting `TRT01A` to a categorical
and `AVAL` to months. -/
def assignStep (rows : List MergedRow) : List AnlRow :=
  rows.map (fun r =>
    ⟨r.studyid, r.usubjid, catArm r.trt01a, r.aval / daysPerMonth, r.cnsr,
      r.param, r.paramcd⟩)

/-- Lines 46-55: the full construction of the analysis frame `anl`. -/
def buildAnl (adsl : List SubjRow) (adtte : List EventRow) : List AnlRow :=
  assignStep (mergeRows (subjFilter adsl) (eventFilter adtte))

/-- Line 65: `anl[anl.TRT01A == treatment]` (a null category equals no
treatment label). -/
def armGroup (anl : List AnlRow) (t : String) : List AnlRow :=
  anl.filter (fun r => decide (r.trt01a = some t))

/-- Line 66: the `(durations, event_observed)` pairs passed to
`KaplanMeierFitter.fit` for one arm.  The code passes the `CNSR` column
itself as `event_observed`; lifelines interprets a nonzero value as an
observed event. -/
def armPairs (anl : List AnlRow) (t : String) : List (ℚ × Bool) :=
  (armGroup anl t).map (fun r => (r.aval, decide (r.cnsr ≠ 0)))

/-- One recorded point of a survival function: a distinct time, the
number at risk just before it, the number of events at it, the cumulative
survival probability after it, and the running Greenwood sum `V` (the
standard error is `S * sqrt V`, kept as the rational `V` here). -/
structure SFPoint where
  time : ℚ
  atRisk : ℕ
  events : ℕ
  survival : ℚ
  greenwood : ℚ
deriving DecidableEq

/-- A survival function: its recorded points in ascending time order,
with time zero as the implicit starting point at survival one. -/
def SurvivalFunction := List SFPoint
deriving DecidableEq

/-- Modelled from the spec: number at risk immediately before time `t` -
the pairs whose time is at least `t` (spec §4.2 step 3). -/
def nAtRisk (pairs : List (ℚ × Bool)) (t : ℚ) : ℕ :=
  pairs.countP (fun p => decide (t ≤ p.1))

/-- Modelled from the spec: number of observed events at time `t`
(spec §4.2 step 3). -/
def nEvents (pairs : List (ℚ × Bool)) (t : ℚ) : ℕ :=
  pairs.countP (fun p => decide (p.1 = t ∧ p.2 = true))

/-- Modelled from the spec: the distinct recorded times, ascending
(spec §4.2 step 1). -/
def eventTimes (pairs : List (ℚ × Bool)) : List ℚ :=
  ((pairs.map Prod.fst).insertionSort (· ≤ ·)).dedup

/-- Modelled from the spec: the running product-limit recursion of
spec §4.2 step 3, processing the distinct times in order while carrying
the running survival `s` and Greenwood sum `v`.  When `events = atRisk`
the survival drops to zero and the variance is treated as zero from that
point (spec §4.2 step 5). -/
def kmStep (pairs : List (ℚ × Bool)) : List ℚ → ℚ → ℚ → List SFPoint
  | [], _, _ => []
  | t :: ts, s, v =>
    let r := nAtRisk pairs t
    let d := nEvents pairs t
    let s' := s * (1 - (d : ℚ) / (r : ℚ))
    let v' := if d < r then v + (d : ℚ) / ((r : ℚ) * ((r : ℚ) - (d : ℚ))) else 0
    ⟨t, r, d, s', v'⟩ :: kmStep pairs ts s' v'

/-- Modelled from the spec: the Kaplan-Meier product-limit estimator of
spec §4.2.  The repository delegates this computation to the lifelines
library (`KaplanMeierFitter.fit`, line 66), whose source is not part of
the repository; the estimator is therefore embedded from the spec's
algorithm. -/
def estimate (pairs : List (ℚ × Bool)) : SurvivalFunction :=
  kmStep pairs (eventTimes pairs) 1 0

/-- Lines 64-74: one estimator invocation per fixed category, in the
fixed category order, regardless of whether the arm has any data. -/
def assembleArms (anl : List AnlRow) : List (String × SurvivalFunction) :=
  fixedArms.map (fun t => (t, estimate (armPairs anl t)))

/-- Lines 45-85: the whole `km_plot` pipeline.  `none` is the
insufficient-data outcome of lines 57-59 (`st.error` then `return None`);
otherwise the per-arm curves of the returned figure. -/
def kmPlot (adsl : List SubjRow) (adtte : List EventRow) :
    Option (List (String × SurvivalFunction)) :=
  let anl := buildAnl adsl adtte
  if anl.length ≤ 5 then none else some (assembleArms anl)

/-- Modelled from the spec: event filtering with an optional parameter
code - "Filters events to `studyId` (and, if a parameter code is
supplied, to that code)" (spec §4.1).  The repository's own filter (line
49) takes no parameter code; this definition exists only to be compared
with `eventFilter`. -/
def specEventFilter (code : Option String) (adtte : List EventRow) : List EventRow :=
  match code with
  | none => adtte.filter (fun r => decide (r.studyid = theStudy))
  | some c => adtte.filter (fun r => decide (r.studyid = theStudy ∧ r.paramcd = c))

/-! ### Concrete fixtures used by witnesses and counterexamples -/

/-- One subject of the hard-coded study in the safety population. -/
def exSubj (i : String) (arm : String) : SubjRow := ⟨theStudy, i, arm, "Y"⟩

/-- One event row of the hard-coded study. -/
def exEvent (i : String) (t : ℚ) (c : ℕ) (pc : String) : EventRow :=
  ⟨theStudy, i, t, c, pc, pc⟩

/-- A single matching subject/event pair: the subject is censored
(`CNSR = 1`) with a raw time of two months. -/
def exC1S : List SubjRow := [exSubj "S9" "Placebo"]

/-- The censored event row matching `exC1S`. -/
def exC1E : List EventRow := [exEvent "S9" (608334 / 10000) 1 "TTDE"]

/-- Six safety-population Placebo subjects; both Xanomeline arms are
empty. -/
def exC2S : List SubjRow :=
  [exSubj "P1" "Placebo", exSubj "P2" "Placebo", exSubj "P3" "Placebo",
   exSubj "P4" "Placebo", exSubj "P5" "Placebo", exSubj "P6" "Placebo"]

/-- Event rows matching the six Placebo subjects of `exC2S`. -/
def exC2E : List EventRow :=
  [exEvent "P1" 1 0 "TTDE", exEvent "P2" 2 0 "TTDE", exEvent "P3" 3 0 "TTDE",
   exEvent "P4" 4 0 "TTDE", exEvent "P5" 5 0 "TTDE", exEvent "P6" 6 0 "TTDE"]

/-- Five Placebo subjects plus one subject whose arm label `Drug X` is
outside the fixed category set. -/
def exC3S : List SubjRow :=
  [exSubj "P1" "Placebo", exSubj "P2" "Placebo", exSubj "P3" "Placebo",
   exSubj "P4" "Placebo", exSubj "P5" "Placebo", exSubj "S6" "Drug X"]

/-- Event rows matching the six subjects of `exC3S`. -/
def exC3E : List EventRow :=
  [exEvent "P1" 1 0 "TTDE", exEvent "P2" 2 0 "TTDE", exEvent "P3" 3 0 "TTDE",
   exEvent "P4" 4 0 "TTDE", exEvent "P5" 5 0 "TTDE", exEvent "S6" 6 0 "TTDE"]

/-- The cohort row built from the unknown-arm subject of `exC3S`: its
categorical arm is the null category. -/
def exC3R : AnlRow :=
  ⟨theStudy, "S6", none, 6 / daysPerMonth, 0, "TTDE", "TTDE"⟩

/-- A single matching subject/event pair with an observed event. -/
def exC5S : List SubjRow := [exSubj "S1" "Placebo"]

/-- The event row matching `exC5S`. -/
def exC5E : List EventRow := [exEvent "S1" 10 0 "TTDE"]

/-- The cohort row built from `exC5S` and `exC5E`. -/
def exC5R : AnlRow :=
  ⟨theStudy, "S1", some "Placebo", 10 / daysPerMonth, 0, "TTDE", "TTDE"⟩

/-- Two event rows of the hard-coded study whose parameter codes differ. -/
def exC8E : List EventRow := [exEvent "S1" 10 0 "A", exEvent "S2" 20 0 "B"]

/-! ### Helper lemmas about the estimator -/

/-- At every time, the events at that time are among the pairs at risk. -/
lemma nEvents_le_nAtRisk (pairs : List (ℚ × Bool)) (t : ℚ) :
    nEvents pairs t ≤ nAtRisk pairs t := by
  unfold nEvents nAtRisk
  apply List.countP_mono_left
  intro a _ h
  simp only [decide_eq_true_eq] at h ⊢
  exact h.1.ge

/-- One product-limit step keeps the running survival in `[0, s]`. -/
lemma survStep_nonneg_le (s : ℚ) (d r : ℕ) (hs : 0 ≤ s) (hdr : d ≤ r) :
    0 ≤ s * (1 - (d : ℚ) / (r : ℚ)) ∧ s * (1 - (d : ℚ) / (r : ℚ)) ≤ s := by
  rcases Nat.eq_zero_or_pos r with hr | hr
  · have hd : d = 0 := Nat.le_zero.mp (hr ▸ hdr)
    subst hr; subst hd
    simp [hs]
  · have hrq : (0 : ℚ) < r := by exact_mod_cast hr
    have hdq : (d : ℚ) / r ≤ 1 := (div_le_one hrq).mpr (by exact_mod_cast hdr)
    have hd0 : 0 ≤ (d : ℚ) / r := by positivity
    exact ⟨mul_nonneg hs (by linarith), by nlinarith⟩

/-- The survival values produced by the product-limit recursion form a
non-increasing chain, and stay in `[0, s]` starting from any `s ≥ 0`. -/
lemma kmStep_chain (pairs : List (ℚ × Bool)) (ts : List ℚ) :
    ∀ s v : ℚ, 0 ≤ s →
      (∀ p ∈ (kmStep pairs ts s v).head?, p.survival ≤ s ∧ 0 ≤ p.survival) ∧
      List.Chain' (fun p q => q.survival ≤ p.survival) (kmStep pairs ts s v) := by
  induction ts with
  | nil => intro s v hs; simp [kmStep]
  | cons t ts ih =>
    intro s v hs
    obtain ⟨h0, h1⟩ := survStep_nonneg_le s (nEvents pairs t) (nAtRisk pairs t) hs
      (nEvents_le_nAtRisk pairs t)
    obtain ⟨ihh, ihc⟩ := ih (s * (1 - (nEvents pairs t : ℚ) / (nAtRisk pairs t : ℚ)))
      (if nEvents pairs t < nAtRisk pairs t then
        v + (nEvents pairs t : ℚ) /
          ((nAtRisk pairs t : ℚ) * ((nAtRisk pairs t : ℚ) - (nEvents pairs t : ℚ)))
      else 0) h0
    refine ⟨?_, ?_⟩
    · intro p hp
      simp only [kmStep, List.head?_cons, Option.mem_def, Option.some.injEq] at hp
      subst hp
      exact ⟨h1, h0⟩
    · rw [show kmStep pairs (t :: ts) s v = _ :: _ from rfl, List.chain'_cons']
      exact ⟨fun q hq => (ihh q hq).1, ihc⟩

/-- Claim C9: for every group of `(time, event_occurred)` pairs, the
computed survival function is non-increasing over its consecutive
recorded times. -/
theorem survival_nonincreasing (pairs : List (ℚ × Bool)) :
    List.Chain' (fun p q => q.survival ≤ p.survival) (estimate pairs) :=
  (kmStep_chain pairs (eventTimes pairs) 1 0 (by norm_num)).2

/-! ### Helper lemmas about the cohort construction -/

/-- Membership in the merged frame, unfolded to its two parent rows. -/
lemma mem_mergeRows {subs : List SubjRow} {evs : List EventRow} {m : MergedRow} :
    m ∈ mergeRows subs evs ↔
      ∃ s ∈ subs, ∃ e ∈ evs, e.studyid = s.studyid ∧ e.usubjid = s.usubjid ∧
        m = ⟨s.studyid, s.usubjid, s.trt01a, e.aval, e.cnsr, e.param, e.paramcd⟩ := by
  simp only [mergeRows, List.mem_flatMap, List.mem_map, List.mem_filter,
    decide_eq_true_eq]
  constructor
  · rintro ⟨s, hs, e, ⟨he, h1, h2⟩, rfl⟩
    exact ⟨s, hs, e, he, h1, h2, rfl⟩
  · rintro ⟨s, hs, e, he, h1, h2, rfl⟩
    exact ⟨s, hs, e, ⟨he, h1, h2⟩, rfl⟩

/-- Membership in the analysis frame, unfolded to the source rows. -/
lemma mem_buildAnl {adsl : List SubjRow} {adtte : List EventRow} {r : AnlRow} :
    r ∈ buildAnl adsl adtte ↔
      ∃ s ∈ adsl, ∃ e ∈ adtte,
        s.saffl = "Y" ∧ s.studyid = theStudy ∧ e.studyid = theStudy ∧
        e.usubjid = s.usubjid ∧
        r = ⟨s.studyid, s.usubjid, catArm s.trt01a, e.aval / daysPerMonth,
              e.cnsr, e.param, e.paramcd⟩ := by
  simp only [buildAnl, assignStep, List.mem_map, mem_mergeRows, subjFilter,
    eventFilter, List.mem_filter, decide_eq_true_eq]
  constructor
  · rintro ⟨m, ⟨s, ⟨hs, hy, hst⟩, e, ⟨he, hest⟩, h1, h2, rfl⟩, rfl⟩
    exact ⟨s, hs, e, he, hy, hst, hest, h2, rfl⟩
  · rintro ⟨s, hs, e, he, hy, hst, hest, h2, rfl⟩
    exact ⟨_, ⟨s, ⟨hs, hy, hst⟩, e, ⟨he, hest⟩, by rw [hest, hst], h2, rfl⟩, rfl⟩

/-! ### Claim theorems -/

/-- Claim C5: every cohort entry comes from a subject row and an event
row of the same study with the same subject identifier (inner join); the
subject row passes the safety-population filter.  Unmatched rows simply
produce no entry - the pipeline is total and never raises. -/
theorem cohort_entry_from_inner_join (adsl : List SubjRow) (adtte : List EventRow)
    (r : AnlRow) (h : r ∈ buildAnl adsl adtte) :
    ∃ s ∈ adsl, ∃ e ∈ adtte,
      s.studyid = theStudy ∧ s.saffl = "Y" ∧ e.studyid = theStudy ∧
      s.usubjid = e.usubjid ∧ r.usubjid = s.usubjid := by
  obtain ⟨s, hs, e, he, hy, hst, hest, hu, rfl⟩ := mem_buildAnl.mp h
  exact ⟨s, hs, e, he, hst, hy, hest, hu.symm, rfl⟩

/-- Claim C6: the days-per-month constant is `30.4167`, and every cohort
entry's time value is the matching event row's raw `AVAL` divided by it. -/
theorem aval_month_conversion (adsl : List SubjRow) (adtte : List EventRow)
    (r : AnlRow) (h : r ∈ buildAnl adsl adtte) :
    daysPerMonth = 304167 / 10000 ∧
    ∃ e ∈ adtte, e.usubjid = r.usubjid ∧ r.aval = e.aval / daysPerMonth := by
  obtain ⟨s, hs, e, he, hy, hst, hest, hu, rfl⟩ := mem_buildAnl.mp h
  exact ⟨rfl, e, he, hu, rfl⟩

/-- Claim C4: the pipeline returns no figure exactly when the built
cohort has at most 5 rows, and returns the assembled per-arm curves
exactly when it has at least 6 rows. -/
theorem cohort_threshold_boundary (adsl : List SubjRow) (adtte : List EventRow) :
    (kmPlot adsl adtte = none ↔ (buildAnl adsl adtte).length ≤ 5) ∧
    (kmPlot adsl adtte = some (assembleArms (buildAnl adsl adtte)) ↔
      6 ≤ (buildAnl adsl adtte).length) := by
  by_cases h : (buildAnl adsl adtte).length ≤ 5 <;> simp [kmPlot, h] <;> omega

/-- Claim C7: curve assembly iterates the arms in the fixed display order
`Placebo, Xanomeline Low Dose, Xanomeline High Dose` for every cohort,
independent of the order of the cohort entries. -/
theorem arm_iteration_fixed_order (anl : List AnlRow) :
    (assembleArms anl).map Prod.fst = fixedArms ∧
    fixedArms = ["Placebo", "Xanomeline Low Dose", "Xanomeline High Dose"] := by
  constructor
  · simp [assembleArms, Function.comp_def]
  · rfl

/-- Length of the merged frame: one summand per subject row. -/
lemma length_mergeRows (subs : List SubjRow) (evs : List EventRow) :
    (mergeRows subs evs).length =
      (subs.map (fun s =>
        (evs.filter (fun e =>
          decide (e.studyid = s.studyid ∧ e.usubjid = s.usubjid))).length)).sum := by
  unfold mergeRows
  rw [List.length_flatMap]
  congr 1
  apply List.map_congr_left
  intro s _
  simp [List.length_map]

/-- Witness for claim C5 at a concrete one-subject input. -/
theorem cohort_entry_from_inner_join_witness :
    ∃ s ∈ exC5S, ∃ e ∈ exC5E,
      s.studyid = theStudy ∧ s.saffl = "Y" ∧ e.studyid = theStudy ∧
      s.usubjid = e.usubjid ∧ exC5R.usubjid = s.usubjid :=
  cohort_entry_from_inner_join exC5S exC5E exC5R (by
    simp [buildAnl, assignStep, mergeRows, subjFilter, eventFilter, exC5S,
      exC5E, exC5R, exSubj, exEvent, catArm, fixedArms, theStudy])

/-- Witness for claim C6 at a concrete one-subject input. -/
theorem aval_month_conversion_witness :
    daysPerMonth = 304167 / 10000 ∧
    ∃ e ∈ exC5E, e.usubjid = exC5R.usubjid ∧ exC5R.aval = e.aval / daysPerMonth :=
  aval_month_conversion exC5S exC5E exC5R (by
    simp [buildAnl, assignStep, mergeRows, subjFilter, eventFilter, exC5S,
      exC5E, exC5R, exSubj, exEvent, catArm, fixedArms, theStudy])

/-- Claim C2 (amended): whenever the global threshold passes, every arm
of the fixed category set - an empty arm included - receives its own
estimator invocation in the output; no arm is reported as insufficient
and no empty arm prevents the other arms' curves. -/
theorem every_fixed_arm_estimated (adsl : List SubjRow) (adtte : List EventRow)
    (t : String) (ht : t ∈ fixedArms) (h6 : 6 ≤ (buildAnl adsl adtte).length) :
    ∃ curves, kmPlot adsl adtte = some curves ∧
      (t, estimate (armPairs (buildAnl adsl adtte) t)) ∈ curves ∧
      curves.map Prod.fst = fixedArms := by
  refine ⟨assembleArms (buildAnl adsl adtte), ?_, ?_, ?_⟩
  · simp only [kmPlot]
    rw [if_neg (by omega)]
  · exact List.mem_map_of_mem _ ht
  · simp [assembleArms, Function.comp_def]

/-- Witness for the amended claim C2: six Placebo entries, both
Xanomeline arms empty. -/
theorem every_fixed_arm_estimated_witness :
    ∃ curves, kmPlot exC2S exC2E = some curves ∧
      ("Xanomeline Low Dose",
        estimate (armPairs (buildAnl exC2S exC2E) "Xanomeline Low Dose")) ∈ curves ∧
      curves.map Prod.fst = fixedArms :=
  every_fixed_arm_estimated exC2S exC2E "Xanomeline Low Dose"
    (by simp [fixedArms])
    (by simp [buildAnl, assignStep, mergeRows, subjFilter, eventFilter, exC2S,
      exC2E, exSubj, exEvent, theStudy])

/-- Counterexample to claim C2 as stated: with six Placebo entries and an
empty `Xanomeline Low Dose` arm, the pipeline does not report
`InsufficientData` for the empty arm - it runs the estimator on the empty
arm and emits a (degenerate, pointless) survival function for it. -/
theorem empty_arm_not_insufficient_cex :
    armPairs (buildAnl exC2S exC2E) "Xanomeline Low Dose" = [] ∧
    kmPlot exC2S exC2E = some (assembleArms (buildAnl exC2S exC2E)) ∧
    ("Xanomeline Low Dose", estimate []) ∈ assembleArms (buildAnl exC2S exC2E) := by
  have hempty : armPairs (buildAnl exC2S exC2E) "Xanomeline Low Dose" = [] := by
    simp [armPairs, armGroup, buildAnl, assignStep, mergeRows, subjFilter,
      eventFilter, exC2S, exC2E, exSubj, exEvent, catArm, fixedArms, theStudy]
  refine ⟨hempty, ?_, ?_⟩
  · simp only [kmPlot]
    rw [if_neg (by
      simp [buildAnl, assignStep, mergeRows, subjFilter, eventFilter, exC2S,
        exC2E, exSubj, exEvent, theStudy])]
  · have : ("Xanomeline Low Dose",
        estimate (armPairs (buildAnl exC2S exC2E) "Xanomeline Low Dose")) ∈
        assembleArms (buildAnl exC2S exC2E) :=
      List.mem_map_of_mem _ (by simp [fixedArms])
    rwa [hempty] at this

/-- Claim C3 (amended): a joined record whose arm label is outside the
fixed set is kept in the cohort with the null arm category: it belongs to
no arm's group, but it does count toward the cohort-size threshold, and
it never causes the pipeline to fail. -/
theorem unknown_arm_kept_not_grouped (adsl : List SubjRow) (adtte : List EventRow)
    (s : SubjRow) (e : EventRow) (hs : s ∈ adsl) (he : e ∈ adtte)
    (hy : s.saffl = "Y") (hst : s.studyid = theStudy) (hest : e.studyid = theStudy)
    (hue : e.usubjid = s.usubjid) (harm : s.trt01a ∉ fixedArms) :
    (⟨s.studyid, s.usubjid, none, e.aval / daysPerMonth, e.cnsr, e.param,
        e.paramcd⟩ : AnlRow) ∈ buildAnl adsl adtte ∧
    (∀ t, (⟨s.studyid, s.usubjid, none, e.aval / daysPerMonth, e.cnsr, e.param,
        e.paramcd⟩ : AnlRow) ∉ armGroup (buildAnl adsl adtte) t) ∧
    (kmPlot adsl adtte = none ↔ (buildAnl adsl adtte).length ≤ 5) := by
  refine ⟨?_, ?_, ?_⟩
  · exact mem_buildAnl.mpr ⟨s, hs, e, he, hy, hst, hest, hue, by
      rw [catArm, if_neg harm]⟩
  · intro t hmem
    rw [armGroup, List.mem_filter] at hmem
    simp at hmem
  · by_cases h5 : (buildAnl adsl adtte).length ≤ 5 <;> simp [kmPlot, h5]

/-- Witness for the amended claim C3 at the concrete `Drug X` input. -/
theorem unknown_arm_kept_not_grouped_witness :
    exC3R ∈ buildAnl exC3S exC3E ∧
    exC3R ∉ armGroup (buildAnl exC3S exC3E) "Placebo" ∧
    (kmPlot exC3S exC3E = none ↔ (buildAnl exC3S exC3E).length ≤ 5) := by
  have h := unknown_arm_kept_not_grouped exC3S exC3E (exSubj "S6" "Drug X")
    (exEvent "S6" 6 0 "TTDE")
    (by simp [exC3S]) (by simp [exC3E])
    (by simp [exSubj]) (by simp [exSubj]) (by simp [exEvent])
    (by simp [exSubj, exEvent]) (by simp [exSubj, fixedArms])
  exact ⟨h.1, h.2.1 "Placebo", h.2.2⟩

/-- Counterexample to claim C3 as stated: the `Drug X` record is not
excluded from the cohort - the built frame has 6 rows, one of them the
null-category row, and the pipeline proceeds (had the record been
excluded, only 5 rows would remain and the pipeline would return the
insufficient-data outcome). -/
theorem unknown_arm_counts_toward_threshold_cex :
    (buildAnl exC3S exC3E).length = 6 ∧
    ((buildAnl exC3S exC3E).filter (fun r => decide (r.trt01a = none))).length = 1 ∧
    kmPlot exC3S exC3E ≠ none := by
  refine ⟨?_, ?_, ?_⟩
  · simp [buildAnl, assignStep, mergeRows, subjFilter, eventFilter, exC3S,
      exC3E, exSubj, exEvent, theStudy]
  · simp [buildAnl, assignStep, mergeRows, subjFilter, eventFilter, exC3S,
      exC3E, exSubj, exEvent, catArm, fixedArms, theStudy]
  · simp only [kmPlot]
    rw [if_neg (by
      simp [buildAnl, assignStep, mergeRows, subjFilter, eventFilter, exC3S,
        exC3E, exSubj, exEvent, theStudy])]
    simp

/-- Claim C8 (amended): the event rows are filtered to the hard-coded
study identifier and to nothing else; the code takes no parameter code
and applies no parameter-code filter, coinciding with the spec's filter
only in its no-code case. -/
theorem event_filter_study_only (adtte : List EventRow) (r : EventRow) :
    (r ∈ eventFilter adtte ↔ r ∈ adtte ∧ r.studyid = theStudy) ∧
    eventFilter adtte = specEventFilter none adtte := by
  constructor
  · simp [eventFilter, List.mem_filter]
  · rfl

/-- Counterexample to claim C8 as stated: on two event rows of the study
whose parameter codes are `A` and `B`, the code's filter keeps both,
whereas a filter restricted to a supplied parameter code would not; the
code's filter differs from the spec's filter for every supplied code. -/
theorem no_paramcd_filter_cex :
    (eventFilter exC8E).map (fun r => r.paramcd) = ["A", "B"] ∧
    eventFilter exC8E ≠ specEventFilter (some "A") exC8E ∧
    eventFilter exC8E ≠ specEventFilter (some "B") exC8E := by
  refine ⟨?_, ?_, ?_⟩ <;>
    simp [eventFilter, specEventFilter, exC8E, exEvent, theStudy]

/-- Claim C10: when every subject row passes all filters, and the event
table carries exactly the same subject identifiers (each exactly once),
the cohort has exactly one entry per subject row - nothing is dropped. -/
theorem same_ids_round_trip (adsl : List SubjRow) (adtte : List EventRow)
    (hS : ∀ s ∈ adsl, s.studyid = theStudy ∧ s.saffl = "Y" ∧ s.trt01a ∈ fixedArms)
    (hE : ∀ e ∈ adtte, e.studyid = theStudy)
    (hnd : (adtte.map (fun e => e.usubjid)).Nodup)
    (hperm : (adtte.map (fun e => e.usubjid)).Perm (adsl.map (fun s => s.usubjid))) :
    (buildAnl adsl adtte).length = adsl.length := by
  have hsf : subjFilter adsl = adsl :=
    List.filter_eq_self.mpr (fun s hs => by
      simp only [decide_eq_true_eq]
      exact ⟨(hS s hs).2.1, (hS s hs).1⟩)
  have hef : eventFilter adtte = adtte :=
    List.filter_eq_self.mpr (fun e he => by
      simp only [decide_eq_true_eq]
      exact hE e he)
  have key : ∀ s ∈ adsl,
      (adtte.filter (fun e =>
        decide (e.studyid = s.studyid ∧ e.usubjid = s.usubjid))).length = 1 := by
    intro s hs
    rw [← List.countP_eq_length_filter]
    have h1 : adtte.countP (fun e =>
        decide (e.studyid = s.studyid ∧ e.usubjid = s.usubjid))
        = adtte.countP (fun e => e.usubjid == s.usubjid) := by
      apply List.countP_congr
      intro e he
      simp only [decide_eq_true_eq, beq_iff_eq]
      exact ⟨fun hc => hc.2, fun hc => ⟨(hE e he).trans (hS s hs).1.symm, hc⟩⟩
    have h2 : adtte.countP (fun e => e.usubjid == s.usubjid)
        = (adtte.map (fun e => e.usubjid)).count s.usubjid := by
      rw [List.count_eq_countP, List.countP_map]
      rfl
    rw [h1, h2, hperm.count_eq]
    exact List.count_eq_one_of_mem (hperm.nodup hnd) (List.mem_map_of_mem _ hs)
  unfold buildAnl assignStep
  rw [List.length_map, hsf, hef, length_mergeRows]
  rw [List.map_congr_left key]
  simp

/-- Witness for claim C10 at a concrete one-subject input. -/
theorem same_ids_round_trip_witness :
    (buildAnl exC5S exC5E).length = exC5S.length :=
  same_ids_round_trip exC5S exC5E
    (by simp [exC5S, exSubj, fixedArms, theStudy])
    (by simp [exC5E, exEvent, theStudy])
    (by simp [exC5E, exEvent])
    (by simp [exC5S, exC5E, exSubj, exEvent])

/-- Claim C1 (code bug evaluation): at a concrete censored subject
(`CNSR = 1`), the pair handed to the estimator carries
`event_occurred = true` - the code passes the `CNSR` column itself as
`event_observed` instead of its complement, so a censored subject is
treated as an observed event. -/
theorem cnsr_passed_directly_as_event :
    (buildAnl exC1S exC1E).map (fun r => r.cnsr) = [1] ∧
    armPairs (buildAnl exC1S exC1E) "Placebo" = [(2, true)] := by
  constructor <;>
    simp [armPairs, armGroup, buildAnl, assignStep, mergeRows, subjFilter,
      eventFilter, exC1S, exC1E, exSubj, exEvent, catArm, fixedArms, theStudy,
      daysPerMonth]
  norm_num
